import Mathlib

/-!
# Verification of the Kalshi whale-detector core

Shallow embedding of the three core components of the repository:

* the **Feature Reconstructor & Scorer** (`analyzer.py`): the per-message
  `callback` that looks up a market baseline, rebuilds the training-time
  feature vector, scores it, and emits an alert when the score is below the
  threshold;
* the **Schema Builder** (`train_model.py`): the batch `main` that fetches
  market metadata and trade history, builds the feature matrix and baselines,
  and persists schema, baselines, and model;
* the **Recovery Controller** (`manager.py`): the polling loop that probes the
  baseline store and, when it is unhealthy, stops the dependent services,
  retrains, and restarts them.

Numbers are modelled as exact rationals (`ℚ`); Python floats are idealised.
The fitted IsolationForest model is opaque: the scorer is parameterised by an
arbitrary scoring function `score_samples : List ℚ → ℚ`, and the persisted
model artifact is identified with the training matrix it was fitted on
(deterministic fit with a fixed seed).
-/

namespace Whale

/-! ## Feature Reconstructor & Scorer (`analyzer.py`) -/

/-- `ANOMALY_SCORE_THRESHOLD = -0.7` (`analyzer.py` line 24). -/
def ANOMALY_SCORE_THRESHOLD : ℚ := -7/10

/-- A trade message consumed from the `raw_trades` queue.  Every field the
`callback` reads with `trade.get(...)` is an `Option` (a missing JSON key is
`None`). The `category` field models a category carried on the raw event
itself: the ingestor forwards the whole exchange trade object verbatim, so the
message may carry such a field, but `callback` never reads it. -/
structure TradeMsg where
  market_ticker : Option String
  count : Option ℚ
  yes_price : Option ℚ
  no_price : Option ℚ
  taker_side : Option String
  ts : Option ℚ
  category : Option String
  deriving DecidableEq, Repr

/-- A baseline record as the scorer reads it back from Redis
(`json.loads(baseline_data)` then `.get` accesses, `analyzer.py` lines 83-95).
`close_time` is `some t` when the stored close time is present and parseable
(`pd.to_datetime` succeeds) and its timestamp is `t` seconds; an absent or
unparseable close time (which the callback drops either way) is `none`. -/
structure RedisBaseline where
  category : Option String
  avg_trade_size : Option ℚ
  std_dev_trade_size : Option ℚ
  close_time : Option ℚ
  open_interest : Option ℚ
  volume_24h : Option ℚ
  title : Option String
  url : Option String
  deriving DecidableEq, Repr

/-- The alert message published to the `alerts` queue
(`analyzer.py` lines 132-139). -/
structure Alert where
  ticker : String
  trade_size : ℚ
  price_paid : Option ℚ
  taker_side : Option String
  anomaly_score : ℚ
  trade_time : ℚ
  market_close_time : ℚ
  title : String
  url : String
  category : String
  deriving DecidableEq, Repr

/-- `size_z_score = (count - avg_trade_size) / (std_dev_trade_size + 1)`
(`analyzer.py` line 101). -/
def size_z_score (count avg_trade_size std_dev_trade_size : ℚ) : ℚ :=
  (count - avg_trade_size) / (std_dev_trade_size + 1)

/-- One-hot sub-vector: a `0`/`1` entry for each persisted category column, in
schema order; the column named `category_<category>` is set to `1` when
present (`analyzer.py` lines 111-116 build the dict of zeros and set the
matching key; line 123 reads it back in `model_categories` order). -/
def one_hot (model_categories : List String) (category : String) : List ℚ :=
  model_categories.map (fun col => if col = "category_" ++ category then 1 else 0)

/-- The full feature vector: 7 numeric stats then the one-hot columns
(`analyzer.py` lines 119-123). -/
def build_feature_vector (model_categories : List String) (category : String)
    (count yes_price avg_trade_size std_dev_trade_size close_ts trade_ts
     open_interest volume_24h : ℚ) : List ℚ :=
  [count, yes_price, avg_trade_size,
   size_z_score count avg_trade_size std_dev_trade_size,
   max 0 ((close_ts - trade_ts) / 3600),
   open_interest, volume_24h] ++ one_hot model_categories category

/-- Result of one `callback` invocation.  Every path of the source
acknowledges the message (`ch.basic_ack` on lines 76, 81, 98, 142, 146), so
each constructor is an acknowledged outcome; they differ in whether scoring
was reached and whether an alert was published:

* `ack`: acknowledged without scoring (missing ticker, missing baseline,
  missing required field, or a processing exception);
* `scored fv s`: feature vector `fv` was scored as `s ≥ threshold`, no alert;
* `alerted fv a`: `fv` scored below the threshold and alert `a` was published
  exactly once before acknowledging. -/
inductive ScorerOutcome where
  | ack : ScorerOutcome
  | scored (fv : List ℚ) (s : ℚ) : ScorerOutcome
  | alerted (fv : List ℚ) (a : Alert) : ScorerOutcome
  deriving DecidableEq, Repr

/-- The scorer's per-message `callback` (`analyzer.py` lines 71-146), with the
opaque fitted model abstracted into `score_samples` and Redis abstracted into
a partial map from key to parsed baseline record (`redis key = none` covers
both an absent key and a record whose JSON would not parse, since the latter
raises and is acknowledged unscored by the exception handler). -/
def callback (score_samples : List ℚ → ℚ) (model_categories : List String)
    (redis : String → Option RedisBaseline) (trade : TradeMsg) : ScorerOutcome :=
  match trade.market_ticker with
  | none => .ack
  | some ticker =>
    -- `if not ticker` is also true for the empty string (Python falsiness)
    if ticker = "" then .ack
    else
      match redis ("baseline:" ++ ticker) with
      | none => .ack
      | some b =>
        -- authoritative category from Redis (line 86)
        let category := b.category.getD "Other"
        let open_interest := b.open_interest.getD 0
        let volume_24h := b.volume_24h.getD 0
        match trade.count, trade.yes_price, trade.ts, b.avg_trade_size,
              b.std_dev_trade_size, b.close_time with
        | some count, some yes_price, some trade_ts, some avg, some std,
          some close_ts =>
          let fv := build_feature_vector model_categories category count
            yes_price avg std close_ts trade_ts open_interest volume_24h
          let s := score_samples fv
          if s < ANOMALY_SCORE_THRESHOLD then
            .alerted fv
              { ticker := ticker
                trade_size := count
                price_paid :=
                  if trade.taker_side = some "no" then trade.no_price
                  else trade.yes_price
                taker_side := trade.taker_side
                anomaly_score := s
                trade_time := trade_ts
                market_close_time := close_ts
                title := b.title.getD "Title Not Found"
                url := b.url.getD "https://kalshi.com/markets"
                category := category }
          else .scored fv s
        | _, _, _, _, _, _ => .ack

/-- The feature vector an outcome scored, if scoring was reached. -/
def ScorerOutcome.scoredVector : ScorerOutcome → Option (List ℚ)
  | .ack => none
  | .scored fv _ => some fv
  | .alerted fv _ => some fv

/-! ## Schema Builder (`train_model.py`) -/

/-- One row of the fetched trade history after the type fixes of
`get_trade_history` (`train_model.py` lines 77-98): ticker, contract count,
yes price, and the parsed `created_time` timestamp in seconds. -/
structure TradeRow where
  ticker : String
  count : ℚ
  yes_price : ℚ
  created_time : ℚ
  deriving DecidableEq, Repr

/-- A market object as fetched by `get_all_markets` before category
resolution; optional fields model keys that may be absent from the API
response (filled with defaults on lines 120-123).  `close_time` is `some t`
when present and parseable by `pd.to_datetime(..., errors=coerce)`
(line 140), `none` when absent or coerced to NaT. -/
structure RawMarket where
  ticker : String
  series_ticker : Option String
  close_time : Option ℚ
  open_interest : Option ℚ
  volume_24h : Option ℚ
  title : Option String
  url : Option String
  deriving DecidableEq, Repr

/-- A market record held in the `market_data` dict: the raw fields plus the
category resolved from the series map (`train_model.py` lines 57-63). -/
structure MarketRec where
  category : String
  close_time : Option ℚ
  open_interest : Option ℚ
  volume_24h : Option ℚ
  title : Option String
  url : Option String
  deriving DecidableEq, Repr

/-- Insert-or-overwrite for an association list, keeping Python dict
semantics: an existing key keeps its position and gets the new value, a new
key is appended. -/
def upsert {α : Type} (m : List (String × α)) (k : String) (v : α) :
    List (String × α) :=
  if (m.find? (fun p => p.1 = k)).isSome then
    m.map (fun p => if p.1 = k then (k, v) else p)
  else m ++ [(k, v)]

/-- Fallback series ticker: the part of the market ticker before the first
`-`, used only when the ticker contains a `-` (line 59-60). -/
def series_from_ticker (t : String) : Option String :=
  if (t.splitOn "-").length > 1 then some ((t.splitOn "-").headD "") else none

/-- Category resolution of `get_all_markets` (lines 58-61): take
`series_ticker` if truthy, else the ticker-derived fallback, then look it up
in the series map with default `"Other"`; a still-missing series ticker
(Python `None` key lookup) also yields `"Other"`. -/
def market_category (series_map : List (String × String)) (rm : RawMarket) :
    String :=
  let st : Option String :=
    match rm.series_ticker with
    | some s => if s = "" then some ((series_from_ticker rm.ticker).getD "")
                else some s
    | none => series_from_ticker rm.ticker
  match st with
  | some s => (series_map.lookup s).getD "Other"
  | none => "Other"

/-- `get_all_markets` (lines 47-70): the `markets` dict keyed by ticker, each
value the market with its resolved category attached. -/
def get_all_markets (series_map : List (String × String))
    (raws : List RawMarket) : List (String × MarketRec) :=
  raws.foldl (fun acc rm =>
    upsert acc rm.ticker
      { category := market_category series_map rm
        close_time := rm.close_time
        open_interest := rm.open_interest
        volume_24h := rm.volume_24h
        title := rm.title
        url := rm.url }) []

/-- The `count` column of one `groupby('ticker')` group (line 111). -/
def group_counts (trades : List TradeRow) (t : String) : List ℚ :=
  (trades.filter (fun tr => tr.ticker = t)).map (fun tr => tr.count)

/-- pandas `mean` aggregate over a nonempty group. -/
def pandas_mean (xs : List ℚ) : ℚ := xs.sum / (xs.length : ℚ)

/-- pandas `std` aggregate (sample std, ddof = 1).  The std of a single
observation is NaN and becomes `0` through `.fillna(0)` (line 114).  The
square root has no exact rational form, so it is supplied as a parameter
`sqrtFn` (idealised real square root); every concrete input evaluated in this
development has groups of size ≤ 1, where `sqrtFn` is not consulted. -/
def pandas_std (sqrtFn : ℚ → ℚ) (xs : List ℚ) : ℚ :=
  if xs.length ≤ 1 then 0
  else sqrtFn ((xs.map (fun x => (x - pandas_mean xs) ^ 2)).sum /
    ((xs.length : ℚ) - 1))

/-- The per-market record persisted to Redis (lines 160-166): after the
defaults of lines 120-123 and the `reindex(...).fillna(0)` of line 161, every
field is concrete; in particular a market with no trade history stores
`avg_trade_size = std_dev_trade_size = 0` and a missing close time is stored
as `0`. -/
structure BaselineOut where
  avg_trade_size : ℚ
  std_dev_trade_size : ℚ
  close_time : ℚ
  title : String
  url : String
  category : String
  open_interest : ℚ
  volume_24h : ℚ
  deriving DecidableEq, Repr

/-- `MAX_TRAIN_ROWS = 500000` (line 25). -/
def MAX_TRAIN_ROWS : ℕ := 500000

/-- Downsampling safety net (lines 126-128).  The source draws a seeded
pseudo-random sample of `MAX_TRAIN_ROWS` rows; the sampled multiset is
modelled as the first `MAX_TRAIN_ROWS` rows.  No claim in this development
evaluates an input above the cap. -/
def downsample (trades : List TradeRow) : List TradeRow :=
  if trades.length > MAX_TRAIN_ROWS then trades.take MAX_TRAIN_ROWS else trades

/-- `size_z_score` as the Builder computes it (line 139). -/
def builder_size_z_score (count avg_trade_size std_dev_trade_size : ℚ) : ℚ :=
  (count - avg_trade_size) / (std_dev_trade_size + 1)

/-- Insert into a lexicographically sorted list of strings. -/
def insert_sorted (a : String) : List String → List String
  | [] => [a]
  | b :: bs => if a ≤ b then a :: b :: bs else b :: insert_sorted a bs

/-- Insertion sort on strings (the column ordering `pd.get_dummies` applies
to the observed category values). -/
def sort_strings : List String → List String
  | [] => []
  | a :: asl => insert_sorted a (sort_strings asl)

/-- The one-hot columns produced by `pd.get_dummies(..., columns=['category'])`
with the `category_` column-name stem (lines 137, 146): one column per
distinct category value among the joined trade rows, in sorted order.  A
trade whose ticker has no market metadata joins to a NaN category and
contributes no column; rows later dropped by `dropna` (line 141) still
contribute their column, since `get_dummies` runs first. -/
def category_columns (mkts : List (String × MarketRec))
    (trades : List TradeRow) : List String :=
  (sort_strings ((trades.filterMap
      (fun tr => (mkts.lookup tr.ticker).map (fun m => m.category))).dedup)).map
    (fun c => "category_" ++ c)

/-- One row of the training matrix (lines 139-147): the 7 numeric features in
the fixed order, then the one-hot columns — the same layout the scorer
rebuilds. -/
def builder_feature_row (cats : List String) (category : String)
    (count yes_price avg std close_ts created oi vol : ℚ) : List ℚ :=
  [count, yes_price, avg, builder_size_z_score count avg std,
   max 0 ((close_ts - created) / 3600), oi, vol] ++ one_hot cats category

/-- Result of `create_feature_matrix` (lines 105-166): the training matrix
`X`, the baselines dict for Redis, and the category column list written to
`model_categories.json`. -/
structure BuilderOutput where
  matrix : List (List ℚ)
  baselines : List (String × BaselineOut)
  schema : List String
  deriving Repr

/-- `create_feature_matrix` (lines 105-166).  A trade row survives into the
matrix iff its ticker has market metadata and that market's close time parses
(`dropna` on lines 141 and 150); its per-ticker mean/std come from the
groupby over the *original* trade list (line 111, before downsampling). -/
def create_feature_matrix (sqrtFn : ℚ → ℚ) (trades : List TradeRow)
    (mkts : List (String × MarketRec)) : BuilderOutput :=
  if trades = [] then ⟨[], [], []⟩
  else
    let ds := downsample trades
    let cats := category_columns mkts ds
    let matrix := ds.filterMap (fun tr =>
      match mkts.lookup tr.ticker with
      | none => none
      | some m =>
        match m.close_time with
        | none => none
        | some close =>
          some (builder_feature_row cats m.category tr.count tr.yes_price
            (pandas_mean (group_counts trades tr.ticker))
            (pandas_std sqrtFn (group_counts trades tr.ticker))
            close tr.created_time (m.open_interest.getD 0)
            (m.volume_24h.getD 0)))
    let baselines := mkts.map (fun p =>
      let cs := group_counts trades p.1
      (p.1,
        { avg_trade_size := if cs = [] then 0 else pandas_mean cs
          std_dev_trade_size := if cs = [] then 0 else pandas_std sqrtFn cs
          close_time := p.2.close_time.getD 0
          title := p.2.title.getD "Title Not Found"
          url := p.2.url.getD "https://kalshi.com/markets"
          category := p.2.category
          open_interest := p.2.open_interest.getD 0
          volume_24h := p.2.volume_24h.getD 0 : BaselineOut }))
    ⟨matrix, baselines, cats⟩

/-- `store_baselines_in_redis` (lines 168-178): one `SET baseline:<ticker>`
per record; an empty dict writes nothing. -/
def store_baselines_in_redis (redis : List (String × BaselineOut))
    (bs : List (String × BaselineOut)) : List (String × BaselineOut) :=
  if bs = [] then redis
  else bs.foldl (fun acc p => upsert acc ("baseline:" ++ p.1) p.2) redis

/-- `train_model` (lines 180-187): `None` on an empty matrix, otherwise the
fitted model.  The fit is deterministic (fixed `random_state`), so the model
artifact is identified with the matrix it was fitted on. -/
def train_model (X : List (List ℚ)) : Option (List (List ℚ)) :=
  if X = [] then none else some X

/-- The persisted artifacts: the Redis baseline store (keys
`baseline:<ticker>`), the `model_categories.json` schema file, and the
`if_model.joblib` model file. -/
structure Artifacts where
  redis : List (String × BaselineOut)
  schema_file : Option (List String)
  model_file : Option (List (List ℚ))
  deriving DecidableEq, Repr

/-- The Builder's `main` (lines 189-210) as a function from the three fetch
results and the previously persisted artifacts to the final artifacts.  An
empty series map, empty market dict, or empty trade history aborts the run
(lines 194, 197, 200).  Otherwise the schema file is written inside
`create_feature_matrix` (line 154), then the baselines are stored (line 203),
and only then is the model fitted and — when the matrix was nonempty —
dumped (lines 204-207). -/
def builder_main (sqrtFn : ℚ → ℚ) (series_map : List (String × String))
    (raw_markets : List RawMarket) (trades : List TradeRow)
    (init : Artifacts) : Artifacts :=
  if series_map = [] then init
  else
    let market_data := get_all_markets series_map raw_markets
    if market_data = [] then init
    else if trades = [] then init
    else
      let out := create_feature_matrix sqrtFn trades market_data
      let a1 : Artifacts := { init with schema_file := some out.schema }
      let a2 : Artifacts :=
        { a1 with redis := store_baselines_in_redis a1.redis out.baselines }
      match train_model out.matrix with
      | none => a2
      | some m => { a2 with model_file := some m }

/-! ## Recovery Controller (`manager.py`) -/

/-- `MIN_REDIS_KEYS = 100` (`manager.py` line 10). -/
def MIN_REDIS_KEYS : Int := 100

/-- Outcome of the `docker exec ... redis-cli DBSIZE` probe: either the
subprocess machinery itself raised (store unreachable, docker missing, ...)
or the command completed with an exit code and captured stdout. -/
inductive ProbeResult where
  | err : ProbeResult
  | ok (returncode : Int) (stdout : String) : ProbeResult
  deriving DecidableEq, Repr

/-- Whether character list `pat` is an initial segment of `s`
(helper for the Python `in` substring test). -/
def chars_start_with : List Char → List Char → Bool
  | [], _ => true
  | _ :: _, [] => false
  | a :: asl, b :: bs => a = b && chars_start_with asl bs

/-- Whether `pat` occurs as a contiguous run inside `s`. -/
def chars_occur (pat : List Char) : List Char → Bool
  | [] => chars_start_with pat []
  | c :: rest => chars_start_with pat (c :: rest) || chars_occur pat rest

/-- Python `needle in hay` on strings. -/
def py_contains (needle hay : String) : Bool :=
  chars_occur needle.toList hay.toList

/-- Python `str.strip()`: remove leading and trailing whitespace. -/
def py_strip (s : String) : String :=
  ⟨((s.toList.dropWhile Char.isWhitespace).reverse.dropWhile
      Char.isWhitespace).reverse⟩

/-- Helper for `py_words`: accumulate the current word (reversed) while
scanning. -/
def py_words_aux : List Char → List Char → List String
  | [], acc => if acc.isEmpty then [] else [⟨acc.reverse⟩]
  | c :: rest, acc =>
    if Char.isWhitespace c then
      (if acc.isEmpty then [] else [⟨acc.reverse⟩]) ++ py_words_aux rest []
    else py_words_aux rest (c :: acc)

/-- Python's `str.split()` with no argument: split on whitespace runs,
dropping empty pieces. -/
def py_words (s : String) : List String :=
  py_words_aux s.toList []

/-- Decimal digit run as a number; `none` when empty or containing a
non-digit. -/
def py_digits : List Char → Option ℕ
  | [] => none
  | cs => cs.foldl
      (fun acc c => acc.bind
        (fun n => if c.isDigit then some (n * 10 + (c.toNat - 48)) else none))
      (some 0)

/-- Python `int(s)`: surrounding whitespace ignored, one optional sign, then
decimal digits; `none` models the raised `ValueError`. -/
def py_int (s : String) : Option Int :=
  match (py_strip s).toList with
  | '-' :: rest => (py_digits rest).map (fun n => -(n : Int))
  | '+' :: rest => (py_digits rest).map (fun n => (n : Int))
  | rest => (py_digits rest).map (fun n => (n : Int))

/-- Parsing of the stripped DBSIZE reply (`manager.py` lines 27-34): when the
output contains `"(integer)"`, the last whitespace-separated word read as an
integer; otherwise the whole output read as an integer.  `none` models the
`int()` `ValueError` (and the `IndexError` of `[-1]` on no words), which the
enclosing `except` turns into unhealthy. -/
def parse_count (output : String) : Option Int :=
  if py_contains "(integer)" output then
    (py_words output).getLast?.bind py_int
  else
    py_int output

/-- `check_redis_health` (lines 13-38): `False` on a raised exception, on a
nonzero exit code, or on unparseable output; otherwise `count >
MIN_REDIS_KEYS` — note the *strict* comparison in the source (lines 31, 34). -/
def check_redis_health (probe : ProbeResult) : Bool :=
  match probe with
  | .err => false
  | .ok rc out =>
    if rc ≠ 0 then false
    else
      match parse_count (py_strip out) with
      | none => false
      | some count => count > MIN_REDIS_KEYS

/-- Observable process-lifecycle actions of the manager loop. -/
inductive ManagerAction where
  | stop : ManagerAction
  | retrain (success : Bool) : ManagerAction
  | restart : ManagerAction
  deriving DecidableEq, Repr

/-- The spec §4.3 recovery states. -/
inductive RecoveryState where
  | HEALTHY
  | STOPPING
  | RETRAINING
  | RESTARTING
  | RETRAIN_FAILED
  deriving DecidableEq, Repr

/-- Actions of one iteration of the manager's `main` loop (lines 81-100):
healthy probe → no action; unhealthy probe → `stop_services`, `run_training`,
and `start_services` only when training succeeded. -/
def manager_tick (probe : ProbeResult) (trainOk : Bool) : List ManagerAction :=
  if check_redis_health probe then []
  else if trainOk then [.stop, .retrain true, .restart]
  else [.stop, .retrain false]

/-- The action trace of a whole run: one loop iteration per probe result,
each consuming the next health-check outcome. -/
def manager_run (probes : List ProbeResult) (trainOk : Bool) :
    List ManagerAction :=
  (probes.map (fun p => manager_tick p trainOk)).flatten

/-- The recovery states traversed in one loop iteration, mapping code phases
to the spec's states: waiting healthy ↦ HEALTHY, `stop_services` ↦ STOPPING,
`run_training` ↦ RETRAINING, `start_services` ↦ RESTARTING, a failed training
↦ RETRAIN_FAILED; a successful cycle ends back in HEALTHY. -/
def tick_states (probe : ProbeResult) (trainOk : Bool) : List RecoveryState :=
  if check_redis_health probe then [.HEALTHY]
  else if trainOk then [.STOPPING, .RETRAINING, .RESTARTING, .HEALTHY]
  else [.STOPPING, .RETRAINING, .RETRAIN_FAILED]

/-- The state trace of a whole run, starting from the initial HEALTHY
state. -/
def manager_trace (probes : List ProbeResult) (trainOk : Bool) :
    List RecoveryState :=
  .HEALTHY :: (probes.map (fun p => tick_states p trainOk)).flatten

/-! ## Scorer lemmas -/

/-- The one-hot sub-vector has one entry per schema column. -/
theorem one_hot_length (mc : List String) (cat : String) :
    (one_hot mc cat).length = mc.length := by
  simp [one_hot]

/-- A category whose column is not in the schema produces the all-zero
one-hot sub-vector. -/
theorem one_hot_unknown (mc : List String) (cat : String)
    (h : ("category_" ++ cat) ∉ mc) :
    one_hot mc cat = List.replicate mc.length 0 := by
  induction mc with
  | nil => rfl
  | cons c cs ih =>
    simp only [List.mem_cons, not_or] at h
    simp only [one_hot, List.map_cons, List.length_cons, List.replicate_succ]
    rw [if_neg (fun hc => h.1 hc.symm)]
    exact congrArg (List.cons 0) (ih h.2)

/-- Inversion of the scorer's `callback`: whenever scoring is reached, every
guard passed, the scored vector is exactly `build_feature_vector` applied to
the baseline's authoritative category and the extracted fields, and the
outcome is determined by comparing the score against the threshold. -/
theorem callback_scoring_inv (score_samples : List ℚ → ℚ) (mc : List String)
    (redis : String → Option RedisBaseline) (trade : TradeMsg) (fv : List ℚ)
    (h : (callback score_samples mc redis trade).scoredVector = some fv) :
    ∃ ticker b count yes_price trade_ts avg std close_ts,
      trade.market_ticker = some ticker ∧ ticker ≠ "" ∧
      redis ("baseline:" ++ ticker) = some b ∧
      trade.count = some count ∧ trade.yes_price = some yes_price ∧
      trade.ts = some trade_ts ∧ b.avg_trade_size = some avg ∧
      b.std_dev_trade_size = some std ∧ b.close_time = some close_ts ∧
      fv = build_feature_vector mc (b.category.getD "Other") count yes_price
        avg std close_ts trade_ts (b.open_interest.getD 0) (b.volume_24h.getD 0) ∧
      callback score_samples mc redis trade =
        (if score_samples fv < ANOMALY_SCORE_THRESHOLD then
          ScorerOutcome.alerted fv
            { ticker := ticker
              trade_size := count
              price_paid := if trade.taker_side = some "no" then trade.no_price
                            else trade.yes_price
              taker_side := trade.taker_side
              anomaly_score := score_samples fv
              trade_time := trade_ts
              market_close_time := close_ts
              title := b.title.getD "Title Not Found"
              url := b.url.getD "https://kalshi.com/markets"
              category := b.category.getD "Other" }
        else ScorerOutcome.scored fv (score_samples fv)) := by
  simp only [callback] at h ⊢
  split at h
  · simp [ScorerOutcome.scoredVector] at h
  next ticker hticker =>
    split at h
    · simp [ScorerOutcome.scoredVector] at h
    next hne =>
      split at h
      · simp [ScorerOutcome.scoredVector] at h
      next b hred =>
        split at h
        next count yes_price trade_ts avg std close_ts hc hy ht ha hs hcl =>
          have hfv : fv = build_feature_vector mc (b.category.getD "Other") count
              yes_price avg std close_ts trade_ts (b.open_interest.getD 0)
              (b.volume_24h.getD 0) := by
            split at h <;> simpa [ScorerOutcome.scoredVector, eq_comm] using h
          subst hfv
          exact ⟨ticker, b, count, yes_price, trade_ts, avg, std, close_ts,
            hticker, hne, hred, hc, hy, ht, ha, hs, hcl, rfl, by rw [if_neg hne]⟩
        next => simp [ScorerOutcome.scoredVector] at h

/-! ## The claims -/

/-- C2: for every feature schema `S` and every trade event the Scorer
processes to the scoring step, the feature vector it builds has length
exactly `7 + |S|`; its tail past the 7 numeric stats is exactly the one-hot
encoding of the baseline's category over the schema columns (no column
reordered or appended), and an unknown category yields the all-zero one-hot
sub-vector. -/
theorem scorer_feature_vector_shape (score_samples : List ℚ → ℚ)
    (mc : List String) (redis : String → Option RedisBaseline) (trade : TradeMsg)
    (fv : List ℚ)
    (h : (callback score_samples mc redis trade).scoredVector = some fv) :
    fv.length = 7 + mc.length ∧
    ∃ cat : String, fv.drop 7 = one_hot mc cat ∧
      (("category_" ++ cat) ∉ mc → fv.drop 7 = List.replicate mc.length 0) := by
  obtain ⟨t, b, c, y, ts', a, sd, cl, -, -, -, -, -, -, -, -, -, hfv, -⟩ :=
    callback_scoring_inv score_samples mc redis trade fv h
  subst hfv
  refine ⟨?_, b.category.getD "Other", ?_, fun hn => ?_⟩
  · simp [build_feature_vector, one_hot]; omega
  · rfl
  · show one_hot mc (b.category.getD "Other") = _
    exact one_hot_unknown mc _ hn

/-- Witness for C2 at a concrete scored event: a one-column schema and a
known baseline give an 8-entry vector. -/
theorem scorer_feature_vector_shape_witness :
    ((callback (fun _ => 0) ["category_X"]
        (fun k => if k = "baseline:T" then
            some { category := some "X", avg_trade_size := some 2,
                   std_dev_trade_size := some 3, close_time := some 100,
                   open_interest := some 4, volume_24h := some 5,
                   title := some "t", url := some "u" }
          else none)
        { market_ticker := some "T", count := some 10, yes_price := some 20,
          no_price := none, taker_side := none, ts := some 0,
          category := none }).scoredVector
      = some [10, 20, 2, 2, 1/36, 4, 5, 1]) ∧
    (([10, 20, 2, 2, (1:ℚ)/36, 4, 5, 1] : List ℚ).length
        = 7 + (["category_X"] : List String).length ∧
     ∃ cat : String,
       ([10, 20, 2, 2, (1:ℚ)/36, 4, 5, 1] : List ℚ).drop 7
          = one_hot ["category_X"] cat ∧
       (("category_" ++ cat) ∉ (["category_X"] : List String) →
         ([10, 20, 2, 2, (1:ℚ)/36, 4, 5, 1] : List ℚ).drop 7
            = List.replicate (["category_X"] : List String).length 0)) := by
  have hcomp : ((callback (fun _ => 0) ["category_X"]
      (fun k => if k = "baseline:T" then
          some { category := some "X", avg_trade_size := some 2,
                 std_dev_trade_size := some 3, close_time := some 100,
                 open_interest := some 4, volume_24h := some 5,
                 title := some "t", url := some "u" }
        else none)
      { market_ticker := some "T", count := some 10, yes_price := some 20,
        no_price := none, taker_side := none, ts := some 0,
        category := none }).scoredVector)
      = some [10, 20, 2, 2, 1/36, 4, 5, 1] := by
    simp +decide [callback, build_feature_vector, one_hot, size_z_score,
      ScorerOutcome.scoredVector, ANOMALY_SCORE_THRESHOLD]
    norm_num
  exact ⟨hcomp, scorer_feature_vector_shape _ _ _ _ _ hcomp⟩

/-- C5: a trade with `count = 500`, `yes_price = 60` whose baseline has
`avg_trade_size = 50`, `std_dev_trade_size = 10` and category `"Sports"`,
scored under the persisted two-category schema (Sports, Other), reaches
scoring with exactly the feature vector
`[500, 60, 50, 450/11, t_hrs, open_interest, volume_24h, 1, 0]` — the Sports
one-hot column 1, the Other column 0 — for any close/trade timestamps, open
interest and 24h volume, and any model. -/
theorem scorer_sports_scenario (score_samples : List ℚ → ℚ)
    (close_ts trade_ts oi vol : ℚ) :
    (callback score_samples ["category_Sports", "category_Other"]
      (fun k => if k = "baseline:KXWTAMATCH" then
          some { category := some "Sports", avg_trade_size := some 50,
                 std_dev_trade_size := some 10, close_time := some close_ts,
                 open_interest := some oi, volume_24h := some vol,
                 title := none, url := none }
        else none)
      { market_ticker := some "KXWTAMATCH", count := some 500,
        yes_price := some 60, no_price := none, taker_side := none,
        ts := some trade_ts, category := none }).scoredVector
    = some [500, 60, 50, 450/11, max 0 ((close_ts - trade_ts) / 3600),
            oi, vol, 1, 0] := by
  simp +decide [callback, build_feature_vector, one_hot, size_z_score]
  norm_num
  rw [apply_ite ScorerOutcome.scoredVector]
  simp [ScorerOutcome.scoredVector]

/-- C6: whenever the Scorer reaches the scoring step, a score strictly below
the threshold yields exactly one published Alert — whose `price_paid` is the
event's `no_price` when `taker_side = "no"` and its `yes_price` otherwise —
followed by an acknowledgment; a score at or above the threshold is
acknowledged with no Alert. -/
theorem scorer_threshold_decision (score_samples : List ℚ → ℚ)
    (mc : List String) (redis : String → Option RedisBaseline) (trade : TradeMsg)
    (fv : List ℚ)
    (h : (callback score_samples mc redis trade).scoredVector = some fv) :
    (score_samples fv < ANOMALY_SCORE_THRESHOLD →
      ∃ a : Alert, callback score_samples mc redis trade = .alerted fv a ∧
        a.price_paid = (if trade.taker_side = some "no" then trade.no_price
                        else trade.yes_price) ∧
        a.anomaly_score = score_samples fv) ∧
    (ANOMALY_SCORE_THRESHOLD ≤ score_samples fv →
      callback score_samples mc redis trade = .scored fv (score_samples fv)) := by
  obtain ⟨t, b, c, y, ts', a, sd, cl, -, -, -, -, -, -, -, -, -, hfv, hcb⟩ :=
    callback_scoring_inv score_samples mc redis trade fv h
  constructor
  · intro hlt
    rw [hcb, if_pos hlt]
    exact ⟨_, rfl, rfl, rfl⟩
  · intro hge
    rw [hcb, if_neg (not_lt.mpr hge)]

/-- Witness for C6 at a concrete event scored `-1 < -0.7`: an alert is
published with `price_paid` resolved from `yes_price` (taker side absent). -/
theorem scorer_threshold_decision_witness :
    ((callback (fun _ => -1) ["category_X"]
        (fun k => if k = "baseline:T" then
            some { category := some "X", avg_trade_size := some 2,
                   std_dev_trade_size := some 3, close_time := some 100,
                   open_interest := some 4, volume_24h := some 5,
                   title := some "t", url := some "u" }
          else none)
        { market_ticker := some "T", count := some 10, yes_price := some 20,
          no_price := none, taker_side := none, ts := some 0,
          category := none }).scoredVector
      = some [10, 20, 2, 2, 1/36, 4, 5, 1]) ∧
    (((-1 : ℚ) < ANOMALY_SCORE_THRESHOLD →
      ∃ a : Alert, callback (fun _ => -1) ["category_X"]
        (fun k => if k = "baseline:T" then
            some { category := some "X", avg_trade_size := some 2,
                   std_dev_trade_size := some 3, close_time := some 100,
                   open_interest := some 4, volume_24h := some 5,
                   title := some "t", url := some "u" }
          else none)
        { market_ticker := some "T", count := some 10, yes_price := some 20,
          no_price := none, taker_side := none, ts := some 0,
          category := none } = .alerted [10, 20, 2, 2, 1/36, 4, 5, 1] a ∧
        a.price_paid = (if (none : Option String) = some "no" then none
                        else some 20) ∧
        a.anomaly_score = -1) ∧
     (ANOMALY_SCORE_THRESHOLD ≤ (-1 : ℚ) →
      callback (fun _ => -1) ["category_X"]
        (fun k => if k = "baseline:T" then
            some { category := some "X", avg_trade_size := some 2,
                   std_dev_trade_size := some 3, close_time := some 100,
                   open_interest := some 4, volume_24h := some 5,
                   title := some "t", url := some "u" }
          else none)
        { market_ticker := some "T", count := some 10, yes_price := some 20,
          no_price := none, taker_side := none, ts := some 0,
          category := none } = .scored [10, 20, 2, 2, 1/36, 4, 5, 1] (-1))) := by
  have hcomp : ((callback (fun _ => -1) ["category_X"]
      (fun k => if k = "baseline:T" then
          some { category := some "X", avg_trade_size := some 2,
                 std_dev_trade_size := some 3, close_time := some 100,
                 open_interest := some 4, volume_24h := some 5,
                 title := some "t", url := some "u" }
        else none)
      { market_ticker := some "T", count := some 10, yes_price := some 20,
        no_price := none, taker_side := none, ts := some 0,
        category := none }).scoredVector)
      = some [10, 20, 2, 2, 1/36, 4, 5, 1] := by
    simp +decide [callback, build_feature_vector, one_hot, size_z_score,
      ScorerOutcome.scoredVector, ANOMALY_SCORE_THRESHOLD]
    norm_num
  exact ⟨hcomp, scorer_threshold_decision _ _ _ _ _ hcomp⟩

/-- C7: the `size_z_score` denominator `std_dev_trade_size + 1` is nonzero
for every nonnegative `std_dev_trade_size`; at `std_dev_trade_size = 0` the
score equals `count - avg_trade_size`; and the Scorer's formula coincides
with the Builder's. -/
theorem size_z_score_guard (count avg std : ℚ) (h : 0 ≤ std) :
    std + 1 ≠ 0 ∧
    (std = 0 → size_z_score count avg std = count - avg) ∧
    size_z_score count avg std = builder_size_z_score count avg std := by
  refine ⟨ne_of_gt (by linarith), ?_, rfl⟩
  intro h0
  subst h0
  simp [size_z_score]

/-- Witness for C7 at `count = 5`, `avg = 2`, `std = 0`. -/
theorem size_z_score_guard_witness :
    (0 : ℚ) ≤ 0 ∧
    ((0 : ℚ) + 1 ≠ 0 ∧
     ((0 : ℚ) = 0 → size_z_score 5 2 0 = 5 - 2) ∧
     size_z_score 5 2 0 = builder_size_z_score 5 2 0) :=
  ⟨le_refl 0, size_z_score_guard 5 2 0 (le_refl 0)⟩

/-- C8: a trade event whose ticker has no baseline record in the store is
acknowledged with zero Alerts and without scoring. -/
theorem scorer_missing_baseline_drop (score_samples : List ℚ → ℚ)
    (mc : List String) (redis : String → Option RedisBaseline) (trade : TradeMsg)
    (ticker : String) (h1 : trade.market_ticker = some ticker)
    (h2 : redis ("baseline:" ++ ticker) = none) :
    callback score_samples mc redis trade = .ack := by
  simp only [callback, h1]
  by_cases he : ticker = ""
  · rw [if_pos he]
  · rw [if_neg he, h2]

/-- Witness for C8: an event for ticker `"T"` against an empty store. -/
theorem scorer_missing_baseline_drop_witness :
    (({ market_ticker := some "T", count := some 1, yes_price := some 2,
        no_price := none, taker_side := none, ts := some 3,
        category := none } : TradeMsg).market_ticker = some "T") ∧
    ((fun _ : String => (none : Option RedisBaseline)) ("baseline:" ++ "T")
      = none) ∧
    callback (fun _ => 0) [] (fun _ => none)
      { market_ticker := some "T", count := some 1, yes_price := some 2,
        no_price := none, taker_side := none, ts := some 3,
        category := none } = .ack :=
  ⟨rfl, rfl, scorer_missing_baseline_drop _ _ _ _ _ rfl rfl⟩

/-- C9: the Scorer's output does not depend on any category carried on the
live event: two events equal on ticker, count, yes price, no price, taker
side and timestamp produce identical outcomes — the category used is always
the baseline's. -/
theorem scorer_category_noninterference (score_samples : List ℚ → ℚ)
    (mc : List String) (redis : String → Option RedisBaseline) (t1 t2 : TradeMsg)
    (hmt : t1.market_ticker = t2.market_ticker) (hc : t1.count = t2.count)
    (hy : t1.yes_price = t2.yes_price) (hn : t1.no_price = t2.no_price)
    (hts : t1.taker_side = t2.taker_side) (ht : t1.ts = t2.ts) :
    callback score_samples mc redis t1 = callback score_samples mc redis t2 := by
  obtain ⟨mt1, c1, y1, n1, tk1, s1, cat1⟩ := t1
  obtain ⟨mt2, c2, y2, n2, tk2, s2, cat2⟩ := t2
  dsimp only at hmt hc hy hn hts ht
  subst hmt; subst hc; subst hy; subst hn; subst hts; subst ht
  rfl

/-- Witness for C9: two concrete events differing only in their carried
category score identically. -/
theorem scorer_category_noninterference_witness :
    (({ market_ticker := some "T", count := some 1, yes_price := some 2,
        no_price := some 3, taker_side := some "yes", ts := some 4,
        category := some "CatA" } : TradeMsg).market_ticker
      = ({ market_ticker := some "T", count := some 1, yes_price := some 2,
           no_price := some 3, taker_side := some "yes", ts := some 4,
           category := some "CatB" } : TradeMsg).market_ticker) ∧
    callback (fun _ => 0) [] (fun _ => none)
      { market_ticker := some "T", count := some 1, yes_price := some 2,
        no_price := some 3, taker_side := some "yes", ts := some 4,
        category := some "CatA" }
    = callback (fun _ => 0) [] (fun _ => none)
      { market_ticker := some "T", count := some 1, yes_price := some 2,
        no_price := some 3, taker_side := some "yes", ts := some 4,
        category := some "CatB" } :=
  ⟨rfl, scorer_category_noninterference _ _ _ _ _ rfl rfl rfl rfl rfl rfl⟩

/-- C3 counterexample: at a record count exactly equal to `MIN_REDIS_KEYS`
(100), the controller does *not* stay HEALTHY — the probe reports unhealthy
(the source compares with strict `>`), the tick takes recovery actions, and
the first traversed state is STOPPING, refuting the claim's `count ≥
MIN_KEYS → stay HEALTHY`. -/
theorem healthy_threshold_boundary_cex :
    (100 : Int) ≥ MIN_REDIS_KEYS ∧
    check_redis_health (.ok 0 "100") = false ∧
    manager_tick (.ok 0 "100") true ≠ [] ∧
    (tick_states (.ok 0 "100") true).head? = some RecoveryState.STOPPING := by
  decide

/-- C3 amended: on a HEALTHY poll tick whose probe output parses to `n`, the
controller stays HEALTHY (no action) iff `n > MIN_KEYS`, and begins the
recovery cycle (first action stop, first state STOPPING) iff
`n ≤ MIN_KEYS` — the boundary `n = MIN_KEYS` triggers recovery. -/
theorem healthy_tick_strict_threshold (out : String) (n : Int) (tOk : Bool)
    (h : parse_count (py_strip out) = some n) :
    (MIN_REDIS_KEYS < n →
      manager_tick (.ok 0 out) tOk = [] ∧
      tick_states (.ok 0 out) tOk = [RecoveryState.HEALTHY]) ∧
    (n ≤ MIN_REDIS_KEYS →
      (manager_tick (.ok 0 out) tOk).head? = some ManagerAction.stop ∧
      (tick_states (.ok 0 out) tOk).head? = some RecoveryState.STOPPING) := by
  constructor
  · intro hlt
    have hch : check_redis_health (.ok 0 out) = true := by
      simp [check_redis_health, h, hlt]
    simp [manager_tick, tick_states, hch]
  · intro hle
    have hch : check_redis_health (.ok 0 out) = false := by
      simp [check_redis_health, h]
      omega
    cases tOk <;> simp [manager_tick, tick_states, hch]

/-- Witness for the amended C3 at a probe output of `150` keys. -/
theorem healthy_tick_strict_threshold_witness :
    parse_count (py_strip "150") = some 150 ∧
    ((MIN_REDIS_KEYS < 150 →
      manager_tick (.ok 0 "150") true = [] ∧
      tick_states (.ok 0 "150") true = [RecoveryState.HEALTHY]) ∧
     ((150 : Int) ≤ MIN_REDIS_KEYS →
      (manager_tick (.ok 0 "150") true).head? = some ManagerAction.stop ∧
      (tick_states (.ok 0 "150") true).head? = some RecoveryState.STOPPING)) :=
  ⟨by decide, healthy_tick_strict_threshold "150" 150 true (by decide)⟩

/-- C4 counterexample: against the health-check count sequence
`[50, 50, 150]` with a successful retrain, the controller stops the dependent
processes twice and restarts them twice — not exactly once as claimed —
because each unhealthy poll runs one full recovery cycle. -/
theorem recovery_scenario_cex :
    (manager_run [.ok 0 "50", .ok 0 "50", .ok 0 "150"] true).count
        ManagerAction.stop = 2 ∧
    (manager_run [.ok 0 "50", .ok 0 "50", .ok 0 "150"] true).count
        ManagerAction.restart = 2 ∧
    ¬ ((manager_run [.ok 0 "50", .ok 0 "50", .ok 0 "150"] true).count
          ManagerAction.stop = 1 ∧
       (manager_run [.ok 0 "50", .ok 0 "50", .ok 0 "150"] true).count
          ManagerAction.restart = 1) := by
  decide

/-- C4 amended: against `[50, 50, 150]` with a successful retrain, each of
the two unhealthy ticks runs one full stop → retrain → restart cycle in that
order, the state trace is
HEALTHY → (STOPPING → RETRAINING → RESTARTING → HEALTHY) twice → HEALTHY, and
the processes are stopped exactly twice and restarted exactly twice. -/
theorem recovery_scenario_two_cycles :
    manager_run [.ok 0 "50", .ok 0 "50", .ok 0 "150"] true =
      [ManagerAction.stop, ManagerAction.retrain true, ManagerAction.restart,
       ManagerAction.stop, ManagerAction.retrain true, ManagerAction.restart] ∧
    manager_trace [.ok 0 "50", .ok 0 "50", .ok 0 "150"] true =
      [RecoveryState.HEALTHY, RecoveryState.STOPPING, RecoveryState.RETRAINING,
       RecoveryState.RESTARTING, RecoveryState.HEALTHY, RecoveryState.STOPPING,
       RecoveryState.RETRAINING, RecoveryState.RESTARTING,
       RecoveryState.HEALTHY, RecoveryState.HEALTHY] := by
  decide

/-- C10: whenever the health probe itself fails — the subprocess raises, the
command exits nonzero, or its output does not parse as a count — the probe
reports unhealthy, and the poll tick takes exactly the same recovery actions
and traverses the same states as a tick against an empty store
(`DBSIZE` = 0). -/
theorem probe_failure_unhealthy (p : ProbeResult) (tOk : Bool)
    (h : p = .err ∨ ∃ rc out, p = .ok rc out ∧
          (rc ≠ 0 ∨ parse_count (py_strip out) = none)) :
    check_redis_health p = false ∧
    manager_tick p tOk = manager_tick (.ok 0 "0") tOk ∧
    tick_states p tOk = tick_states (.ok 0 "0") tOk := by
  have h0 : check_redis_health (.ok 0 "0") = false := by decide
  have hch : check_redis_health p = false := by
    rcases h with rfl | ⟨rc, out, rfl, hrc | hp⟩
    · rfl
    · simp [check_redis_health, hrc]
    · rcases eq_or_ne rc 0 with rfl | hne
      · simp [check_redis_health, hp]
      · simp [check_redis_health, hne]
  exact ⟨hch, by simp [manager_tick, hch, h0], by simp [tick_states, hch, h0]⟩

/-- Witness for C10 at a raised probe exception. -/
theorem probe_failure_unhealthy_witness :
    (ProbeResult.err = ProbeResult.err ∨ ∃ rc out, ProbeResult.err = .ok rc out ∧
        (rc ≠ 0 ∨ parse_count (py_strip out) = none)) ∧
    (check_redis_health .err = false ∧
     manager_tick .err true = manager_tick (.ok 0 "0") true ∧
     tick_states .err true = tick_states (.ok 0 "0") true) :=
  ⟨Or.inl rfl, probe_failure_unhealthy .err true (Or.inl rfl)⟩

/-- C1 counterexample: a run in which every fetch stage succeeds (one series,
one market `"M1"`, one trade for the metadata-less ticker `"T2"`) but the
model-fit stage fails (the training matrix is empty, so `train_model`
returns `None`) leaves the model file untouched yet has already republished
the baseline store (now holding `baseline:M1`) and overwritten the schema
file (now the empty column list) — refuting all-or-nothing persistence. -/
theorem builder_partial_persistence_cex :
    (create_feature_matrix (fun _ => 0)
        [{ ticker := "T2", count := 10, yes_price := 50, created_time := 0 }]
        (get_all_markets [("S", "Politics")]
          [{ ticker := "M1", series_ticker := some "S", close_time := some 1000,
             open_interest := some 5, volume_24h := some 6, title := some "T",
             url := some "U" }])).matrix = [] ∧
    (builder_main (fun _ => 0) [("S", "Politics")]
        [{ ticker := "M1", series_ticker := some "S", close_time := some 1000,
           open_interest := some 5, volume_24h := some 6, title := some "T",
           url := some "U" }]
        [{ ticker := "T2", count := 10, yes_price := 50, created_time := 0 }]
        { redis := [], schema_file := some ["category_Politics"],
          model_file := some [[1]] }).model_file = some [[1]] ∧
    (builder_main (fun _ => 0) [("S", "Politics")]
        [{ ticker := "M1", series_ticker := some "S", close_time := some 1000,
           open_interest := some 5, volume_24h := some 6, title := some "T",
           url := some "U" }]
        [{ ticker := "T2", count := 10, yes_price := 50, created_time := 0 }]
        { redis := [], schema_file := some ["category_Politics"],
          model_file := some [[1]] }).redis ≠ [] ∧
    (builder_main (fun _ => 0) [("S", "Politics")]
        [{ ticker := "M1", series_ticker := some "S", close_time := some 1000,
           open_interest := some 5, volume_24h := some 6, title := some "T",
           url := some "U" }]
        [{ ticker := "T2", count := 10, yes_price := 50, created_time := 0 }]
        { redis := [], schema_file := some ["category_Politics"],
          model_file := some [[1]] }).schema_file ≠ some ["category_Politics"] := by
  decide

/-- C1 amended: a fetch-stage failure (empty series map, empty market dict,
or empty trade history) aborts the run with no artifact mutated; a model-fit
failure (empty training matrix) leaves the model file unchanged — but, as
the counterexample shows, the baselines and schema have by then already been
republished. -/
theorem builder_failure_persistence (sqrtFn : ℚ → ℚ)
    (series_map : List (String × String)) (raw_markets : List RawMarket)
    (trades : List TradeRow) (init : Artifacts) :
    ((series_map = [] ∨ get_all_markets series_map raw_markets = [] ∨
        trades = []) →
      builder_main sqrtFn series_map raw_markets trades init = init) ∧
    ((create_feature_matrix sqrtFn trades
          (get_all_markets series_map raw_markets)).matrix = [] →
      (builder_main sqrtFn series_map raw_markets trades init).model_file
        = init.model_file) := by
  constructor
  · rintro (h | h | h)
    · simp [builder_main, h]
    · by_cases hs : series_map = [] <;> simp [builder_main, hs, h]
    · by_cases hs : series_map = [] <;>
        by_cases hm : get_all_markets series_map raw_markets = [] <;>
          simp [builder_main, hs, hm, h]
  · intro h
    simp only [builder_main]
    split
    · rfl
    · split
      · rfl
      · split
        · rfl
        · simp [train_model, h]

/-- Witness for the amended C1 at an empty-fetch run. -/
theorem builder_failure_persistence_witness :
    ((([] : List (String × String)) = [] ∨ get_all_markets [] [] = [] ∨
        ([] : List TradeRow) = []) ∧
     builder_main (fun _ => 0) [] [] []
        { redis := [], schema_file := some ["c"], model_file := some [[2]] }
      = { redis := [], schema_file := some ["c"], model_file := some [[2]] }) ∧
    ((create_feature_matrix (fun _ => 0) [] (get_all_markets [] [])).matrix
        = [] ∧
     (builder_main (fun _ => 0) [] [] []
        { redis := [], schema_file := some ["c"],
          model_file := some [[2]] }).model_file = some [[2]]) :=
  ⟨⟨Or.inl rfl, (builder_failure_persistence (fun _ => 0) [] [] []
      { redis := [], schema_file := some ["c"], model_file := some [[2]] }).1
      (Or.inl rfl)⟩,
   ⟨rfl, (builder_failure_persistence (fun _ => 0) [] [] []
      { redis := [], schema_file := some ["c"], model_file := some [[2]] }).2
      rfl⟩⟩

end Whale
